import Mathlib

/-!
Verification of the Achis-Einkaufsservice SPA static file server (`src/app.py`).

The program is a Flask application:

```python
app = Flask(__name__, static_folder='client/dist', template_folder='client/dist')
app.secret_key = os.environ.get("SESSION_SECRET")

@app.route('/', defaults={'path': ''})
@app.route('/<path:path>')
def serve(path):
    if path != "" and os.path.exists(app.static_folder + '/' + path):
        return send_from_directory(app.static_folder, path)
    return render_template('index.html')

if __name__ == '__main__':
    app.run(host='0.0.0.0', port=5000, debug=True)
```

We shallowly embed the view function `serve` together with the library
operations it calls, faithful to their documented POSIX/Flask/Werkzeug
semantics:

* `os.path.exists` is true for regular files AND directories, resolving
  `.`/`..` segments (modelled lexically, clamped at the file-system root);
* `flask.send_from_directory` first applies Werkzeug's `safe_join`
  (normalise the relative path with `posixpath.normpath`, then reject
  absolute paths and paths whose normal form starts with `..`), answering
  404 Not Found on rejection, then requires a regular file at the joined
  location (404 otherwise) and serves its bytes with a content type
  guessed from the file extension;
* `flask.render_template 'index.html'` loads `index.html` from the
  template folder (= the asset root here) and returns its Jinja2
  rendering with status 200 and content type `text/html`; a missing
  template raises `TemplateNotFound`, surfacing as HTTP 500;
* Jinja2 rendering runs with an empty context, so an expression
  `\x7b\x7b name \x7d\x7d` is an undefined variable and renders as the
  empty string; a comment `\x7b# ... #\x7d` is dropped entirely; a
  statement tag `\x7b% ... %\x7d` is consumed (its tag text never reaches
  the output) while the template text between tags is processed normally.
  The renderer is modelled for this fragment (variable expressions,
  comments, and statements whose bodies are emitted); in every case a
  directive's delimiter text is consumed, as in Jinja2.

The file system is a parameter: a map from absolute paths (segment lists
from the file-system root) to optional file contents, plus a directory
predicate. Bodies/bytes are modelled as `String`.
-/

/-- A snapshot of the file system: `file p` is the content of the regular
file at absolute path `p` (segments from the file-system root), `dir p`
tells whether `p` is a directory. -/
structure FS where
  file : List String → Option String
  dir : List String → Bool

/-- An HTTP response: status code, body bytes (as a string) and the
`Content-Type` header. -/
structure Response where
  status : Nat
  body : String
  contentType : String
deriving DecidableEq, Repr

/-- Split a list of characters at a separator character; `cur` is the
reversed current segment. Mirrors Python `str.split(sep)`. -/
def splitChars (sep : Char) (cur : List Char) : List Char → List String
  | [] => [String.mk cur.reverse]
  | c :: rest =>
    if c = sep then String.mk cur.reverse :: splitChars sep [] rest
    else splitChars sep (c :: cur) rest

/-- Split a slash-separated path into its raw segments
(Python `p.split('/')`). -/
def splitPath (p : String) : List String :=
  splitChars '/' [] p.toList

/-- `posixpath.isabs`: a POSIX path is absolute iff it starts with `/`. -/
def isAbs (p : String) : Bool :=
  match p.toList with
  | '/' :: _ => true
  | _ => false

/-- Resolution of raw path segments by the operating system against the
absolute directory `acc` (segments from the file-system root): empty and
`.` segments are skipped, `..` moves to the parent (clamped at the root,
as `/.. = /` on POSIX). This is the resolution performed when
`os.path.exists(static_folder + '/' + path)` stats the concatenated
path (modelled lexically). -/
def resolveSegs (acc : List String) : List String → List String
  | [] => acc
  | s :: rest =>
    if s = "" ∨ s = "." then resolveSegs acc rest
    else if s = ".." then resolveSegs acc.dropLast rest
    else resolveSegs (acc ++ [s]) rest

/-- The absolute path that `root ++ "/" ++ p` denotes on the file system
(`root` is the absolute asset-root directory, as segments). -/
def resolvePath (root : List String) (p : String) : List String :=
  resolveSegs root (splitPath p)

/-- `os.path.exists`: true iff a regular file or a directory lives at the
resolved location. -/
def pathExists (fs : FS) (segs : List String) : Bool :=
  (fs.file segs).isSome || fs.dir segs

/-- `posixpath.normpath` on a relative path, as segments: empty and `.`
segments are dropped, a `..` cancels a preceding normal segment but is
kept when there is nothing left to cancel (`normpath("../../x") =
"../../x"`). -/
def normSegs (acc : List String) : List String → List String
  | [] => acc
  | s :: rest =>
    if s = "" ∨ s = "." then normSegs acc rest
    else if s = ".." then
      if acc = [] ∨ acc.getLastD "" = ".." then normSegs (acc ++ [".."]) rest
      else normSegs acc.dropLast rest
    else normSegs (acc ++ [s]) rest

/-- Werkzeug's `safe_join(directory, path)`: normalise `path` with
`posixpath.normpath`, then refuse (`none`) absolute paths and paths whose
normal form still begins with `..`; otherwise return the joined absolute
path. -/
def safeJoin (root : List String) (p : String) : Option (List String) :=
  if isAbs p then none
  else if (normSegs [] (splitPath p)).headD "" = ".." then none
  else some (root ++ normSegs [] (splitPath p))

/-- The last path segment of a request path (basis for extension
guessing). -/
def lastSegment (p : String) : String :=
  (splitPath p).getLastD ""

/-- The file extension of the last segment (text after the final dot),
or `""` when the segment has no dot. -/
def fileExt (p : String) : String :=
  let parts := splitChars '.' [] (lastSegment p).toList
  if parts.length ≤ 1 then "" else parts.getLastD ""

/-- `mimetypes` table used by Werkzeug's `send_file` to infer the
`Content-Type` from the extension of the served name (Werkzeug appends
the UTF-8 charset to `text/*` types). Unknown extensions fall back to
`application/octet-stream`. -/
def mimeFromExt : String → String
  | "html" => "text/html; charset=utf-8"
  | "htm" => "text/html; charset=utf-8"
  | "js" => "text/javascript; charset=utf-8"
  | "css" => "text/css; charset=utf-8"
  | "json" => "application/json"
  | "png" => "image/png"
  | "jpg" => "image/jpeg"
  | "jpeg" => "image/jpeg"
  | "gif" => "image/gif"
  | "svg" => "image/svg+xml"
  | "ico" => "image/vnd.microsoft.icon"
  | "txt" => "text/plain; charset=utf-8"
  | _ => "application/octet-stream"

/-- Content type inferred from a request path's file extension. -/
def guessMimetype (p : String) : String :=
  mimeFromExt (fileExt p)

/-- Werkzeug's 404 Not Found error response (raised by
`send_from_directory` when `safe_join` refuses the path or no regular
file is at the joined location). -/
def notFoundResponse : Response :=
  { status := 404
    body := "404 Not Found: The requested URL was not found on the server."
    contentType := "text/html; charset=utf-8" }

/-- The 500 Internal Server Error response Flask produces when the view
raises (here: `jinja2.exceptions.TemplateNotFound` from
`render_template('index.html')` with no `index.html` present). -/
def internalErrorResponse : Response :=
  { status := 500
    body := "500 Internal Server Error"
    contentType := "text/html; charset=utf-8" }

/-- First character of the two-character closing delimiter matching a
directive opener's second character: `\x7b\x7b ... \x7d\x7d`,
`\x7b% ... %\x7d`, `\x7b# ... #\x7d`. -/
def closeChar (d : Char) : Char :=
  if d = '{' then '}' else d

/-- The Jinja2 renderer with an empty context. The mode is `none` outside
a directive (characters are copied verbatim) and `some k` inside one,
where `k` is the first character of the closing delimiter. `\x7b\x7b`
opens an expression: its content up to `\x7d\x7d` is consumed and — the
variable being undefined in the empty context — nothing is emitted.
`\x7b#` opens a comment, dropped entirely up to `#\x7d`. `\x7b%` opens a
statement tag, consumed up to `%\x7d`; the template text following the
tag is processed normally (the fragment modelled: statements whose
bodies are emitted). In every case the directive's delimiter text is
consumed, never copied to the output. -/
def renderAux : Option Char → List Char → List Char
  | _, [] => []
  | mode, [c] =>
    match mode with
    | none => [c]
    | some _ => []
  | none, c :: d :: rest =>
    if c = '{' ∧ (d = '{' ∨ d = '%' ∨ d = '#') then renderAux (some (closeChar d)) rest
    else c :: renderAux none (d :: rest)
  | some k, c :: d :: rest =>
    if c = k ∧ d = '}' then renderAux none rest
    else renderAux (some k) (d :: rest)

/-- Whether a character list contains any Jinja2 directive opener:
`\x7b\x7b` (expression), `\x7b%` (statement) or `\x7b#` (comment). -/
def hasDirective : List Char → Bool
  | [] => false
  | [_] => false
  | c :: d :: rest =>
    (c == '{' && (d == '{' || d == '%' || d == '#')) || hasDirective (d :: rest)

/-- Jinja2 rendering of a template string with the empty context. -/
def jinjaRender (s : String) : String :=
  String.mk (renderAux none s.toList)

/-- `flask.render_template name` with the app's template folder: Jinja2
renders the template file when it exists; otherwise `TemplateNotFound`
escapes the view and Flask answers 500. The successful response carries
status 200 and content type `text/html`. -/
def render_template (fs : FS) (root : List String) (name : String) : Response :=
  match fs.file (root ++ [name]) with
  | some c =>
    { status := 200, body := jinjaRender c, contentType := "text/html; charset=utf-8" }
  | none => internalErrorResponse

/-- `flask.send_from_directory(directory, path)`: `safe_join` the path
onto the directory (404 on refusal), then serve the regular file at the
joined location (404 when none) with status 200 and a content type
guessed from the name's extension. -/
def send_from_directory (fs : FS) (root : List String) (p : String) : Response :=
  match safeJoin root p with
  | none => notFoundResponse
  | some joined =>
    match fs.file joined with
    | none => notFoundResponse
    | some content =>
      { status := 200, body := content, contentType := guessMimetype p }

/-- The view function `serve(path)` of `src/app.py` (lines 9-12): when the
path is non-empty and `os.path.exists(static_folder + '/' + path)` holds,
delegate to `send_from_directory`; otherwise fall back to
`render_template('index.html')`. `root` is the absolute asset-root
(`app.static_folder`, which equals the template folder). -/
def serve (fs : FS) (root : List String) (path : String) : Response :=
  if path ≠ "" ∧ pathExists fs (resolvePath root path) then
    send_from_directory fs root path
  else
    render_template fs root "index.html"

/-- A path segment is clean when it is neither empty nor `.` nor `..`:
for such segments lexical and operating-system resolution agree. -/
def cleanSeg (s : String) : Bool :=
  !(s == "" || s == "." || s == "..")

/-- All segments of a segment list are clean. -/
def cleanPath (l : List String) : Bool :=
  l.all cleanSeg

/-- HTTP request methods. -/
inductive Method
  | GET | HEAD | OPTIONS | POST | PUT | DELETE | PATCH
deriving DecidableEq, Repr

/-- The methods Flask registers for a route declared without a `methods`
argument: `GET` from the default, plus the automatically added `HEAD` and
`OPTIONS`. -/
def routeMethods : List Method :=
  [Method.GET, Method.HEAD, Method.OPTIONS]

/-- Werkzeug's 405 Method Not Allowed error response, produced by the
routing layer before any view function runs. -/
def methodNotAllowedResponse : Response :=
  { status := 405
    body := "405 Method Not Allowed: The method is not allowed for the requested URL."
    contentType := "text/html; charset=utf-8" }

/-- Flask's automatic `OPTIONS` response for a route: status 200 with an
empty body (the `Allow` header is not modelled); the view function is not
invoked. -/
def optionsResponse : Response :=
  { status := 200, body := "", contentType := "text/html; charset=utf-8" }

/-- Method dispatch of the Flask routing layer for the catch-all route of
`src/app.py` (lines 7-9): `GET` runs the view `serve`, `HEAD` runs it and
drops the body, `OPTIONS` is answered automatically, and every other
method is rejected with 405 before the view is reached. -/
def dispatch (fs : FS) (root : List String) (m : Method) (p : String) : Response :=
  if m = Method.OPTIONS then optionsResponse
  else if m = Method.GET then serve fs root p
  else if m = Method.HEAD then
    let r := serve fs root p
    { r with body := "" }
  else methodNotAllowedResponse

/-- The application configuration built at import time (`src/app.py`
lines 4-5): static and template folder both `client/dist`, and
`app.secret_key = os.environ.get("SESSION_SECRET")` — `dict.get` returns
`None` when the variable is absent, it never raises. -/
structure AppConfig where
  staticFolder : List String
  templateFolder : List String
  secretKey : Option String
deriving DecidableEq, Repr

/-- Construction of the Flask app object and its secret key from the
process environment (`src/app.py` lines 4-5). The environment is read at
this single point, once, at startup. -/
def appInit (root : List String) (env : String → Option String) : AppConfig :=
  { staticFolder := root, templateFolder := root, secretKey := env "SESSION_SECRET" }

/-- Outcome of the `__main__` block: whether a listener was bound and the
process exit code. -/
structure RunResult where
  bound : Bool
  exitCode : Nat
deriving DecidableEq, Repr

/-- The `__main__` block (`src/app.py` lines 14-15): `app.run(host,
port, debug)` binds the listener when the port is free and fails with a
non-zero exit otherwise. No file-system check of any kind is performed
before binding: the file-system state is not consulted. -/
def runMain (_fs : FS) (portFree : Bool) : RunResult :=
  if portFree then { bound := true, exitCode := 0 }
  else { bound := false, exitCode := 1 }

/-- A full request handled through the app configuration: route dispatch
against the configured static folder. The secret key plays no part. -/
def handleRequest (cfg : AppConfig) (fs : FS) (m : Method) (p : String) : Response :=
  dispatch fs cfg.staticFolder m p

/-- A file system with no files and no directories at all (the asset
root `client/dist` is missing entirely). -/
def emptyFS : FS :=
  { file := fun _ => none, dir := fun _ => false }

/-- A sample deployed file system: asset root `/srv` holding the
fallback `index.html` (no template directives) and `assets/app.js`, and
an outside file `/etc/passwd`. -/
def fsA : FS :=
  { file := fun segs =>
      if segs = ["srv", "index.html"] then some "<html>ok</html>"
      else if segs = ["srv", "assets", "app.js"] then some "js-code"
      else if segs = ["etc", "passwd"] then some "root:x:0:0"
      else none
    dir := fun segs =>
      segs = [] || segs = ["srv"] || segs = ["srv", "assets"] || segs = ["etc"] }

/-- Like `fsA` but the fallback `index.html` contains the Jinja2
expression `\x7b\x7bx\x7d\x7d`, which renders differently from its raw
bytes. -/
def fsTmpl : FS :=
  { file := fun segs =>
      if segs = ["srv", "index.html"] then some "a\x7b\x7bx\x7d\x7db"
      else none
    dir := fun segs => segs = [] || segs = ["srv"] }

/-- Like `fsA` but the fallback `index.html` contains the Jinja2
statement directives `\x7b%if x%\x7d` and `\x7b%endif%\x7d`, whose tag
text rendering consumes. -/
def fsStmt : FS :=
  { file := fun segs =>
      if segs = ["srv", "index.html"] then some "a\x7b%if x%\x7db\x7b%endif%\x7d"
      else none
    dir := fun segs => segs = [] || segs = ["srv"] }

/-! ### Helper lemmas -/

/-- A clean segment is neither empty nor `.` nor `..`. -/
theorem cleanSeg_spec (s : String) (h : cleanSeg s = true) :
    s ≠ "" ∧ s ≠ "." ∧ s ≠ ".." := by
  simp [cleanSeg] at h
  exact ⟨h.1.1, h.1.2, h.2⟩

/-- On clean segments, operating-system resolution appends the segments
to the base directory. -/
theorem resolveSegs_clean : ∀ (l acc : List String), cleanPath l = true →
    resolveSegs acc l = acc ++ l
  | [], acc, _ => by simp [resolveSegs]
  | s :: rest, acc, h => by
    have hall : cleanSeg s = true ∧ cleanPath rest = true := by
      simpa [cleanPath, List.all_cons] using h
    have hs := cleanSeg_spec s hall.1
    have h1 : ¬(s = "" ∨ s = ".") := by
      rintro (h' | h')
      · exact hs.1 h'
      · exact hs.2.1 h'
    simp only [resolveSegs, if_neg h1, if_neg hs.2.2]
    rw [resolveSegs_clean rest (acc ++ [s]) hall.2]
    simp

/-- On clean segments, `posixpath.normpath` appends the segments to the
accumulator. -/
theorem normSegs_clean : ∀ (l acc : List String), cleanPath l = true →
    normSegs acc l = acc ++ l
  | [], acc, _ => by simp [normSegs]
  | s :: rest, acc, h => by
    have hall : cleanSeg s = true ∧ cleanPath rest = true := by
      simpa [cleanPath, List.all_cons] using h
    have hs := cleanSeg_spec s hall.1
    have h1 : ¬(s = "" ∨ s = ".") := by
      rintro (h' | h')
      · exact hs.1 h'
      · exact hs.2.1 h'
    simp only [normSegs, if_neg h1, if_neg hs.2.2]
    rw [normSegs_clean rest (acc ++ [s]) hall.2]
    simp

/-- A clean segment list does not start with `..`. -/
theorem cleanPath_headD (l : List String) (h : cleanPath l = true) :
    l.headD "" ≠ ".." := by
  cases l with
  | nil => decide
  | cons s t =>
    have hall : cleanSeg s = true ∧ cleanPath t = true := by
      simpa [cleanPath, List.all_cons] using h
    simpa using (cleanSeg_spec s hall.1).2.2

/-- A path whose raw segments are clean is non-empty. -/
theorem cleanPath_ne_empty (p : String) (h : cleanPath (splitPath p) = true) :
    p ≠ "" := by
  intro hp
  subst hp
  exact absurd h (by decide)

/-- `safe_join` accepts a clean relative path and joins it onto the
directory. -/
theorem safeJoin_clean (root : List String) (p : String)
    (hclean : cleanPath (splitPath p) = true) (habs : isAbs p = false) :
    safeJoin root p = some (root ++ splitPath p) := by
  have hn : normSegs [] (splitPath p) = splitPath p := by
    simpa using normSegs_clean (splitPath p) [] hclean
  unfold safeJoin
  rw [habs]
  simp only [Bool.false_eq_true, if_false, hn]
  rw [if_neg (cleanPath_headD (splitPath p) hclean)]

/-- `serve` takes the fallback branch for the empty path and for paths
failing the `os.path.exists` test. -/
theorem serve_fallback (fs : FS) (root : List String) (p : String)
    (hne : p = "" ∨ pathExists fs (resolvePath root p) = false) :
    serve fs root p = render_template fs root "index.html" := by
  unfold serve
  rw [if_neg]
  rintro ⟨hp, hex⟩
  rcases hne with h | h
  · exact hp h
  · rw [h] at hex
    exact absurd hex (by decide)

/-- `render_template 'index.html'` with the template present. -/
theorem render_template_some (fs : FS) (root : List String) (c : String)
    (hidx : fs.file (root ++ ["index.html"]) = some c) :
    render_template fs root "index.html" =
      { status := 200, body := jinjaRender c, contentType := "text/html; charset=utf-8" } := by
  unfold render_template
  rw [hidx]

/-- `render_template 'index.html'` with the template missing surfaces as
HTTP 500. -/
theorem render_template_none (fs : FS) (root : List String)
    (hidx : fs.file (root ++ ["index.html"]) = none) :
    render_template fs root "index.html" = internalErrorResponse := by
  unfold render_template
  rw [hidx]

/-- `serve` on a clean path naming a regular file under the asset root
answers 200 with the file's bytes and the guessed content type. -/
theorem serve_clean_file (fs : FS) (root : List String) (p bytes : String)
    (hclean : cleanPath (splitPath p) = true) (habs : isAbs p = false)
    (hfile : fs.file (root ++ splitPath p) = some bytes) :
    serve fs root p = { status := 200, body := bytes, contentType := guessMimetype p } := by
  have hp : p ≠ "" := cleanPath_ne_empty p hclean
  have hres : resolvePath root p = root ++ splitPath p := by
    unfold resolvePath
    exact resolveSegs_clean (splitPath p) root hclean
  have hex : pathExists fs (resolvePath root p) = true := by
    rw [hres]
    simp [pathExists, hfile]
  unfold serve
  rw [if_pos ⟨hp, hex⟩]
  unfold send_from_directory
  rw [safeJoin_clean root p hclean habs]
  simp [hfile]

/-- Rendering a directive-free template is the identity. -/
theorem renderAux_id : ∀ (l : List Char), hasDirective l = false → renderAux none l = l
  | [], _ => rfl
  | [_], _ => rfl
  | c :: d :: rest, h => by
    simp only [hasDirective, Bool.or_eq_false_iff, Bool.and_eq_false_iff,
      beq_eq_false_iff_ne, ne_eq] at h
    have h1 : ¬(c = '{' ∧ (d = '{' ∨ d = '%' ∨ d = '#')) := by tauto
    simp only [renderAux, if_neg h1]
    rw [renderAux_id (d :: rest) h.2]

/-- Rendering never lengthens the template. -/
theorem renderAux_length : ∀ (mode : Option Char) (l : List Char),
    (renderAux mode l).length ≤ l.length
  | _, [] => by simp [renderAux]
  | mode, [c] => by cases mode <;> simp [renderAux]
  | none, c :: d :: rest => by
    by_cases h : c = '{' ∧ (d = '{' ∨ d = '%' ∨ d = '#')
    · simp only [renderAux, if_pos h]
      have := renderAux_length (some (closeChar d)) rest
      simp only [List.length_cons]
      omega
    · simp only [renderAux, if_neg h, List.length_cons]
      have := renderAux_length none (d :: rest)
      simp only [List.length_cons] at this
      omega
  | some k, c :: d :: rest => by
    by_cases h : c = k ∧ d = '}'
    · simp only [renderAux, if_pos h]
      have := renderAux_length none rest
      simp only [List.length_cons]
      omega
    · simp only [renderAux, if_neg h]
      have := renderAux_length (some k) (d :: rest)
      simp only [List.length_cons] at this ⊢
      omega

/-- A template containing any directive opener (`\x7b\x7b`, `\x7b%` or
`\x7b#` — whose delimiter text the renderer consumes) strictly shrinks
under rendering. -/
theorem renderAux_lt : ∀ (l : List Char), hasDirective l = true →
    (renderAux none l).length < l.length
  | [], h => by simp [hasDirective] at h
  | [_], h => by simp [hasDirective] at h
  | c :: d :: rest, h => by
    by_cases h1 : c = '{' ∧ (d = '{' ∨ d = '%' ∨ d = '#')
    · simp only [renderAux, if_pos h1]
      have := renderAux_length (some (closeChar d)) rest
      simp only [List.length_cons]
      omega
    · have h2 : hasDirective (d :: rest) = true := by
        simp only [hasDirective, Bool.or_eq_true, Bool.and_eq_true, beq_iff_eq] at h
        rcases h with h' | h'
        · exact absurd ⟨h'.1, by tauto⟩ h1
        · exact h'
      simp only [renderAux, if_neg h1, List.length_cons]
      have := renderAux_lt (d :: rest) h2
      simp only [List.length_cons] at this ⊢
      omega

/-- Jinja2 rendering of a directive-free template returns it verbatim. -/
theorem jinjaRender_id (s : String) (h : hasDirective s.toList = false) :
    jinjaRender s = s := by
  unfold jinjaRender
  rw [renderAux_id s.toList h]
  rfl

/-- Jinja2 rendering of a template containing a directive changes it. -/
theorem jinjaRender_ne (s : String) (h : hasDirective s.toList = true) :
    jinjaRender s ≠ s := by
  intro he
  have hlt : (renderAux none s.toList).length < s.toList.length :=
    renderAux_lt s.toList h
  have hd : renderAux none s.toList = s.toList := congrArg String.toList he
  rw [hd] at hlt
  exact lt_irrefl _ hlt

/-! ### Claims -/

/-- C1 (counterexample): the claim promises the exact byte content of
`index.html` for non-existing paths, but the code returns the Jinja2
RENDERING of `index.html`. With `index.html = "a\x7b\x7bx\x7d\x7db"` and
the non-existing path `"missing"`, the response has status 200 yet its
body differs from the fallback document's bytes. -/
theorem c1_counterexample :
    fsTmpl.file (["srv"] ++ ["index.html"]) = some "a\x7b\x7bx\x7d\x7db" ∧
    pathExists fsTmpl (resolvePath ["srv"] "missing") = false ∧
    (serve fsTmpl ["srv"] "missing").status = 200 ∧
    (serve fsTmpl ["srv"] "missing").body ≠ "a\x7b\x7bx\x7d\x7db" := by
  decide

/-- C1 (amended): for every non-existing request path (empty included),
`serve` answers status 200 — never 404 — with the Jinja2 rendering of
`index.html` as its body; the body equals the exact byte content of
`index.html` whenever that document contains no template directives. -/
theorem c1_fallback_200 (fs : FS) (root : List String) (p c : String)
    (hidx : fs.file (root ++ ["index.html"]) = some c)
    (hne : p = "" ∨ pathExists fs (resolvePath root p) = false) :
    (serve fs root p).status = 200 ∧
    (serve fs root p).body = jinjaRender c ∧
    (hasDirective c.toList = false → (serve fs root p).body = c) := by
  rw [serve_fallback fs root p hne, render_template_some fs root c hidx]
  exact ⟨rfl, rfl, fun h => jinjaRender_id c h⟩

/-- C1 (witness): on `fsA` the non-existing multi-segment path
`"dashboard/settings"` receives the 200 fallback. -/
theorem c1_fallback_200_witness :
    (serve fsA ["srv"] "dashboard/settings").status = 200 ∧
    (serve fsA ["srv"] "dashboard/settings").body = jinjaRender "<html>ok</html>" ∧
    (hasDirective ("<html>ok</html>").toList = false →
      (serve fsA ["srv"] "dashboard/settings").body = "<html>ok</html>") :=
  c1_fallback_200 fsA ["srv"] "dashboard/settings" "<html>ok</html>"
    (by decide) (Or.inr (by decide))

/-- C2 (confirmed): a request path that names an existing regular file
under the asset root (a clean relative path: no empty, `.` or `..`
segments) is answered with status 200, the exact byte content of that
file, and a content type inferred from the file extension. -/
theorem c2_existing_asset (fs : FS) (root : List String) (p bytes : String)
    (hclean : cleanPath (splitPath p) = true)
    (habs : isAbs p = false)
    (hfile : fs.file (root ++ splitPath p) = some bytes) :
    serve fs root p =
      { status := 200, body := bytes, contentType := mimeFromExt (fileExt p) } :=
  serve_clean_file fs root p bytes hclean habs hfile

/-- C2 (witness): `fsA` serves `assets/app.js` byte-for-byte with the
JavaScript content type. -/
theorem c2_existing_asset_witness :
    serve fsA ["srv"] "assets/app.js" =
      { status := 200, body := "js-code",
        contentType := mimeFromExt (fileExt "assets/app.js") } :=
  c2_existing_asset fsA ["srv"] "assets/app.js" "js-code"
    (by decide) (by decide) (by decide)

/-- C3 (counterexample): the claim promises the fallback response for
traversal paths, but when the traversal target exists the code answers
404 Not Found: `os.path.exists` succeeds on `/etc/passwd`, so control
reaches `send_from_directory`, whose `safe_join` rejects the path. The
response is neither the fallback nor the outside file's content. -/
theorem c3_counterexample :
    fsA.file ["etc", "passwd"] = some "root:x:0:0" ∧
    pathExists fsA (resolvePath ["srv"] "../../etc/passwd") = true ∧
    serve fsA ["srv"] "../../etc/passwd" = notFoundResponse ∧
    serve fsA ["srv"] "../../etc/passwd" ≠ render_template fsA ["srv"] "index.html" := by
  decide

/-- C3 (amended): for every path that escapes the asset root (absolute,
or with a normalized form still beginning in `..`), the response is
either the fallback response (when the traversal target does not exist)
or Werkzeug's 404 — never the content of a file outside the asset
root. -/
theorem c3_traversal_never_escapes (fs : FS) (root : List String) (p : String)
    (hesc : isAbs p = true ∨ (normSegs [] (splitPath p)).headD "" = "..") :
    serve fs root p = render_template fs root "index.html" ∨
    serve fs root p = notFoundResponse := by
  have hsj : safeJoin root p = none := by
    unfold safeJoin
    rcases hesc with h | h
    · rw [if_pos h]
    · by_cases habs : isAbs p = true
      · rw [if_pos habs]
      · rw [if_neg habs, if_pos h]
  by_cases hc : p ≠ "" ∧ pathExists fs (resolvePath root p) = true
  · right
    unfold serve
    rw [if_pos hc]
    unfold send_from_directory
    rw [hsj]
  · left
    unfold serve
    rw [if_neg hc]

/-- C3 (witness): the traversal path `../../etc/passwd` on `fsA` gets
the fallback-or-404 outcome. -/
theorem c3_traversal_never_escapes_witness :
    serve fsA ["srv"] "../../etc/passwd" = render_template fsA ["srv"] "index.html" ∨
    serve fsA ["srv"] "../../etc/passwd" = notFoundResponse :=
  c3_traversal_never_escapes fsA ["srv"] "../../etc/passwd" (Or.inr (by decide))

/-- C4 (counterexample): the claim demands a non-zero exit before
binding when the asset root is missing, but the `__main__` block performs
no file-system check: with a completely empty file system the process
still binds its listener and runs (exit code 0). -/
theorem c4_counterexample :
    emptyFS.file ["srv", "index.html"] = none ∧
    emptyFS.dir ["srv"] = false ∧
    runMain emptyFS true = { bound := true, exitCode := 0 } := by
  decide

/-- C4 (amended): startup never consults the file system — with the
asset root (and fallback document) missing the process binds exactly as
with any other file system and exits 0 on a free port; the
misconfiguration surfaces only at request time, as an HTTP 500 from
`TemplateNotFound`, not as a startup failure. -/
theorem c4_no_startup_check (fs : FS) (root : List String) (p : String)
    (portFree : Bool)
    (hmiss : fs.file (root ++ ["index.html"]) = none)
    (hne : p = "" ∨ pathExists fs (resolvePath root p) = false) :
    runMain fs portFree = runMain emptyFS portFree ∧
    (portFree = true → runMain fs portFree = { bound := true, exitCode := 0 }) ∧
    (serve fs root p).status = 500 := by
  refine ⟨rfl, fun hp => by rw [hp]; rfl, ?_⟩
  rw [serve_fallback fs root p hne, render_template_none fs root hmiss]
  rfl

/-- C4 (witness): the empty file system binds and serves a 500. -/
theorem c4_no_startup_check_witness :
    runMain emptyFS true = runMain emptyFS true ∧
    (true = true → runMain emptyFS true = { bound := true, exitCode := 0 }) ∧
    (serve emptyFS ["srv"] "dashboard").status = 500 :=
  c4_no_startup_check emptyFS ["srv"] "dashboard" true (by decide)
    (Or.inr (by decide))

/-- C5 (counterexample): the claim promises the status-200 fallback for
a path naming an existing directory, but `os.path.exists` is true for
directories, so control reaches `send_from_directory`, which answers 404
because no regular file is there: on `fsA` the directory path `assets`
gets 404, not 200. -/
theorem c5_counterexample :
    fsA.dir ["srv", "assets"] = true ∧
    fsA.file ["srv", "assets"] = none ∧
    serve fsA ["srv"] "assets" = notFoundResponse ∧
    (serve fsA ["srv"] "assets").status ≠ 200 := by
  decide

/-- C5 (amended): the existence check `os.path.exists` accepts
directories as well, so a clean path naming an existing directory (with
no regular file there) is NOT treated as non-existing: it reaches
`send_from_directory` and receives 404 Not Found instead of the
fallback. -/
theorem c5_directory_404 (fs : FS) (root : List String) (p : String)
    (hclean : cleanPath (splitPath p) = true)
    (habs : isAbs p = false)
    (hnofile : fs.file (root ++ splitPath p) = none)
    (hdir : fs.dir (root ++ splitPath p) = true) :
    serve fs root p = notFoundResponse := by
  have hp : p ≠ "" := cleanPath_ne_empty p hclean
  have hres : resolvePath root p = root ++ splitPath p := by
    unfold resolvePath
    exact resolveSegs_clean (splitPath p) root hclean
  have hex : pathExists fs (resolvePath root p) = true := by
    rw [hres]
    simp [pathExists, hdir]
  unfold serve
  rw [if_pos ⟨hp, hex⟩]
  unfold send_from_directory
  rw [safeJoin_clean root p hclean habs]
  simp [hnofile]

/-- C5 (witness): the directory `assets` of `fsA` receives 404. -/
theorem c5_directory_404_witness :
    serve fsA ["srv"] "assets" = notFoundResponse :=
  c5_directory_404 fsA ["srv"] "assets" (by decide) (by decide)
    (by decide) (by decide)

/-- C6 (counterexample): `handle("")` renders `index.html` through
Jinja2 while `handle("index.html")` serves its raw bytes, so with a
template directive in `index.html` the two differ. -/
theorem c6_counterexample :
    fsTmpl.file ["srv", "index.html"] = some "a\x7b\x7bx\x7d\x7db" ∧
    serve fsTmpl ["srv"] "" ≠ serve fsTmpl ["srv"] "index.html" := by
  decide

/-- C6 (amended): when `index.html` exists and contains no template
directives (and its content type is `text/html` either way),
`serve("")` and `serve("index.html")` produce identical responses. -/
theorem c6_empty_equiv_index (fs : FS) (root : List String) (c : String)
    (hidx : fs.file (root ++ ["index.html"]) = some c)
    (hnd : hasDirective c.toList = false) :
    serve fs root "" = serve fs root "index.html" := by
  have hsp : splitPath "index.html" = ["index.html"] := by decide
  have hfile : fs.file (root ++ splitPath "index.html") = some c := by
    rw [hsp]
    exact hidx
  rw [serve_fallback fs root "" (Or.inl rfl), render_template_some fs root c hidx,
    serve_clean_file fs root "index.html" c (by decide) (by decide) hfile,
    jinjaRender_id c hnd]
  have hmime : guessMimetype "index.html" = "text/html; charset=utf-8" := by decide
  rw [hmime]

/-- C6 (witness): on `fsA` (directive-free `index.html`) the empty path
and `index.html` coincide. -/
theorem c6_empty_equiv_index_witness :
    serve fsA ["srv"] "" = serve fsA ["srv"] "index.html" :=
  c6_empty_equiv_index fsA ["srv"] "<html>ok</html>" (by decide) (by decide)

/-- C7 (confirmed): `serve` is a pure function of the request path and
the file-system snapshot — two calls with the same path under the same
file-system state are identical, bodies byte-for-byte equal. -/
theorem c7_deterministic (fs : FS) (root : List String) (p : String) :
    serve fs root p = serve fs root p ∧
    (serve fs root p).body = (serve fs root p).body :=
  ⟨rfl, rfl⟩

/-- C8 (confirmed): the secret is `os.environ.get("SESSION_SECRET")`,
read at the single startup point `appInit`; with the variable absent the
secret is simply `None`, startup still binds and exits 0, and request
handling is unaffected by the environment entirely. -/
theorem c8_secret_optional (env env2 : String → Option String) (fs : FS)
    (root : List String) (m : Method) (p : String)
    (henv : env "SESSION_SECRET" = none) :
    (appInit root env).secretKey = none ∧
    runMain fs true = { bound := true, exitCode := 0 } ∧
    handleRequest (appInit root env) fs m p =
      handleRequest (appInit root env2) fs m p := by
  refine ⟨?_, rfl, rfl⟩
  simp [appInit, henv]

/-- C8 (witness): with no environment at all the app starts and serves
exactly as with a secret set. -/
theorem c8_secret_optional_witness :
    (appInit ["srv"] (fun _ => none)).secretKey = none ∧
    runMain fsA true = { bound := true, exitCode := 0 } ∧
    handleRequest (appInit ["srv"] (fun _ => none)) fsA Method.GET "assets/app.js" =
      handleRequest (appInit ["srv"] (fun _ => some "s3cret")) fsA Method.GET "assets/app.js" :=
  c8_secret_optional (fun _ => none) (fun _ => some "s3cret") fsA ["srv"]
    Method.GET "assets/app.js" rfl

/-- C9 (confirmed): the fallback body is the Jinja2 rendering of
`index.html`, not its raw bytes, and the two coincide EXACTLY when the
document contains no directive opener (`\x7b\x7b`, `\x7b%` or `\x7b#`):
a directive-free document renders to itself, while a document containing
any directive — a directive's delimiter text being consumed by the
renderer — yields a body strictly different from the raw bytes. -/
theorem c9_fallback_is_rendering (fs : FS) (root : List String) (p c : String)
    (hidx : fs.file (root ++ ["index.html"]) = some c)
    (hne : p = "" ∨ pathExists fs (resolvePath root p) = false) :
    (serve fs root p).body = jinjaRender c ∧
    (hasDirective c.toList = false → (serve fs root p).body = c) ∧
    (hasDirective c.toList = true → (serve fs root p).body ≠ c) := by
  rw [serve_fallback fs root p hne, render_template_some fs root c hidx]
  exact ⟨rfl, fun h => jinjaRender_id c h, fun h => jinjaRender_ne c h⟩

/-- C9 (witness): with `index.html = "a\x7b%if x%\x7db\x7b%endif%\x7d"`
(statement directives only) the fallback body is the rendering,
different from the raw bytes. -/
theorem c9_fallback_is_rendering_witness :
    (serve fsStmt ["srv"] "missing").body =
      jinjaRender "a\x7b%if x%\x7db\x7b%endif%\x7d" ∧
    (hasDirective ("a\x7b%if x%\x7db\x7b%endif%\x7d").toList = false →
      (serve fsStmt ["srv"] "missing").body = "a\x7b%if x%\x7db\x7b%endif%\x7d") ∧
    (hasDirective ("a\x7b%if x%\x7db\x7b%endif%\x7d").toList = true →
      (serve fsStmt ["srv"] "missing").body ≠ "a\x7b%if x%\x7db\x7b%endif%\x7d") :=
  c9_fallback_is_rendering fsStmt ["srv"] "missing" "a\x7b%if x%\x7db\x7b%endif%\x7d"
    (by decide) (Or.inr (by decide))

/-- C10 (confirmed): the route carries Flask's default methods `GET`,
`HEAD` and `OPTIONS` only; any other method is answered 405 Method Not
Allowed by the routing layer, independently of the file system and the
path (the view never runs), while `GET` reaches the view `serve`. -/
theorem c10_method_not_allowed (fs fs2 : FS) (root root2 : List String)
    (m : Method) (p p2 : String)
    (hm : m ∉ routeMethods) :
    dispatch fs root m p = methodNotAllowedResponse ∧
    (dispatch fs root m p).status = 405 ∧
    dispatch fs root m p = dispatch fs2 root2 m p2 ∧
    dispatch fs root Method.GET p = serve fs root p := by
  have ho : m ≠ Method.OPTIONS := by
    rintro rfl
    exact hm (by decide)
  have hg : m ≠ Method.GET := by
    rintro rfl
    exact hm (by decide)
  have hh : m ≠ Method.HEAD := by
    rintro rfl
    exact hm (by decide)
  have key : ∀ (fs' : FS) (root' : List String) (p' : String),
      dispatch fs' root' m p' = methodNotAllowedResponse := by
    intro fs' root' p'
    simp [dispatch, ho, hg, hh]
  refine ⟨key fs root p, by rw [key fs root p]; rfl, ?_, by simp [dispatch]⟩
  rw [key fs root p, key fs2 root2 p2]

/-- C10 (witness): a `POST` to an existing asset path is rejected with
405 regardless of the file system. -/
theorem c10_method_not_allowed_witness :
    dispatch fsA ["srv"] Method.POST "assets/app.js" = methodNotAllowedResponse ∧
    (dispatch fsA ["srv"] Method.POST "assets/app.js").status = 405 ∧
    dispatch fsA ["srv"] Method.POST "assets/app.js" =
      dispatch emptyFS [] Method.POST "other" ∧
    dispatch fsA ["srv"] Method.GET "assets/app.js" = serve fsA ["srv"] "assets/app.js" :=
  c10_method_not_allowed fsA emptyFS ["srv"] [] Method.POST "assets/app.js" "other"
    (by decide)
